import Mathlib

set_option maxRecDepth 100000

/-!
Verification of the TwinCAT SVB reader (`twincatscopeview/svbfile.py`).

The development shallowly embeds the binary decoding layer of the reader:

* byte streams are `List Nat` (one entry per byte);
* the primitive field readers of `_readheader` become `readUInt`, `readStr`
  and `readTimeField` (one per format character: `Q`/`L`/`?`/`d` are
  little-endian unsigned integers of 8/4/1/8 bytes, `*` is a length-prefixed
  UTF-8 string, `T` is a 100ns-tick timestamp);
* `float64` calibration fields are kept as their raw 64-bit little-endian
  bit pattern (no claim under study interprets their numeric value);
* Python `datetime` results are represented by their signed microsecond
  offset from the epoch 1601-01-01, and the float division `timeval/10`
  is modelled exactly by round-to-nearest-even `float64` rounding of the
  rational quotient (`floatRound`) followed by the round-half-even
  microsecond rounding performed by `datetime.timedelta`;
* fallible decoding returns `Except DecodeError`;
* the numpy time-axis computation of `Channel.Time` becomes `timeTicks`
  (`np.diff` on `uint32` is wrapping subtraction modulo `2^32`, and
  `np.cumsum` into a `float64` output accumulates the deltas exactly,
  which is faithful for the list sizes considered here).

The calendar range check of `datetime` (years up to 9999) and the
`np.memmap` construction over the data region are outside the decoded
header values and are not modelled.
-/

/-- Little-endian value of a byte list: `leVal [b0, b1, ...] = b0 + 256*b1 + ...`.
This is `struct.unpack('<...')` on the listed bytes. -/
def leVal : List Nat → Nat
  | [] => 0
  | b :: r => b + 256 * leVal r

/-- Little-endian encoding of `n` on `k` bytes (used to build test buffers). -/
def leBytes : Nat → Nat → List Nat
  | 0, _ => []
  | k + 1, n => n % 256 :: leBytes k (n / 256)

/-- Round a rational to the nearest integer, ties to even.  This is the
rounding used both by IEEE-754 binary64 arithmetic and by
`datetime.timedelta` when given fractional microseconds. -/
def roundHalfEven (q : ℚ) : ℤ :=
  if Int.fract q < 1 / 2 then ⌊q⌋
  else if 1 / 2 < Int.fract q then ⌊q⌋ + 1
  else if ⌊q⌋ % 2 = 0 then ⌊q⌋ else ⌊q⌋ + 1

/-- Round a rational to the nearest IEEE-754 binary64 value (normal range),
ties to even: the value is rounded to the nearest multiple of
`2 ^ (⌊log2 |x|⌋ - 52)`.  This models Python's correctly rounded float
division `timeval / 10` for the magnitudes produced by the decoder
(no overflow or subnormals arise from `t / 10` with `t` a 64-bit tick
count). -/
def floatRound (x : ℚ) : ℚ :=
  if x = 0 then 0
  else (roundHalfEven (x / 2 ^ (Int.log 2 |x| - 52)) : ℚ) * 2 ^ (Int.log 2 |x| - 52)

/-- Microsecond offset from 1601-01-01 produced by the `T` format branch of
`_readheader`: `datetime.datetime(1601,1,1) + datetime.timedelta(microseconds
= timeval/10)`.  The float division is modelled by `floatRound` and the
timedelta conversion rounds the fractional microseconds half-to-even. -/
def decodeTicks (t : Nat) : ℤ := roundHalfEven (floatRound ((t : ℚ) / 10))

/-- Continuation byte test for UTF-8. -/
def utf8Cont (b : Nat) : Bool := 0x80 ≤ b && b ≤ 0xBF

/-- Fuel-indexed UTF-8 validity check (the fuel bounds the number of decoded
code points; each step consumes at least one byte). -/
def utf8Go : Nat → List Nat → Bool
  | _, [] => true
  | 0, _ :: _ => false
  | fuel + 1, b :: r =>
    if b ≤ 0x7F then utf8Go fuel r
    else if 0xC2 ≤ b && b ≤ 0xDF then
      match r with
      | c1 :: r2 => utf8Cont c1 && utf8Go fuel r2
      | [] => false
    else if b = 0xE0 then
      match r with
      | c1 :: c2 :: r2 => (0xA0 ≤ c1 && c1 ≤ 0xBF) && utf8Cont c2 && utf8Go fuel r2
      | _ => false
    else if b = 0xED then
      match r with
      | c1 :: c2 :: r2 => (0x80 ≤ c1 && c1 ≤ 0x9F) && utf8Cont c2 && utf8Go fuel r2
      | _ => false
    else if 0xE1 ≤ b && b ≤ 0xEF then
      match r with
      | c1 :: c2 :: r2 => utf8Cont c1 && utf8Cont c2 && utf8Go fuel r2
      | _ => false
    else if b = 0xF0 then
      match r with
      | c1 :: c2 :: c3 :: r2 =>
        (0x90 ≤ c1 && c1 ≤ 0xBF) && utf8Cont c2 && utf8Cont c3 && utf8Go fuel r2
      | _ => false
    else if 0xF1 ≤ b && b ≤ 0xF3 then
      match r with
      | c1 :: c2 :: c3 :: r2 => utf8Cont c1 && utf8Cont c2 && utf8Cont c3 && utf8Go fuel r2
      | _ => false
    else if b = 0xF4 then
      match r with
      | c1 :: c2 :: c3 :: r2 =>
        (0x80 ≤ c1 && c1 ≤ 0x8F) && utf8Cont c2 && utf8Cont c3 && utf8Go fuel r2
      | _ => false
    else false

/-- Validity of a byte list as UTF-8, as required by `.decode('utf-8')`. -/
def utf8Valid (s : List Nat) : Bool := utf8Go s.length s

/-- Error taxonomy of the decoder (section 7 of the design): truncated input,
malformed string, channel/file header size mismatch, data size mismatch
(the `assert` on `DataInFile`), and unknown data-type tag. -/
inductive DecodeError where
  | truncated
  | malformedString
  | headerSizeMismatch
  | dataSizeMismatch
  | unknownDataType
  deriving DecidableEq

/-- Read `n` raw bytes from the stream; running out of bytes is a
truncated-input error (Python's `struct.unpack` on a short read). -/
def readBytes (n : Nat) (bs : List Nat) : Except DecodeError (List Nat × List Nat) :=
  if n ≤ bs.length then .ok (bs.take n, bs.drop n) else .error .truncated

/-- Little-endian unsigned integer field of `n` bytes: the `Q` (`n = 8`),
`L` (`n = 4`) and `?` (`n = 1`, as raw byte) branches of `_readheader`. -/
def readUInt (n : Nat) (bs : List Nat) : Except DecodeError (Nat × List Nat) :=
  (readBytes n bs).map fun p => (leVal p.1, p.2)

/-- Sequencing of decode steps: run `x`, propagate its error, otherwise feed
the decoded value and the remaining bytes to `f` (the monadic bind of the
decoder, written out so that proofs can unfold it). -/
def decStep {a b : Type} (x : Except DecodeError (a × List Nat))
    (f : a → List Nat → Except DecodeError b) : Except DecodeError b :=
  match x with
  | .error e => .error e
  | .ok (v, r) => f v r

/-- The `*` branch of `_readheader`: a `uint32` byte length followed by that
many bytes of UTF-8 data. -/
def readStr (bs : List Nat) : Except DecodeError (List Nat × List Nat) :=
  decStep (readUInt 4 bs) fun n r =>
  decStep (readBytes n r) fun s r2 =>
  if utf8Valid s then .ok (s, r2) else .error .malformedString

/-- The `T` branch of `_readheader`: a `uint64` tick count converted to a
calendar time, represented by its microsecond offset from 1601-01-01. -/
def readTimeField (bs : List Nat) : Except DecodeError (ℤ × List Nat) :=
  (readUInt 8 bs).map fun p => (decodeTicks p.1, p.2)

/-- File-level header fields decoded by `_readheader(header, '*TTL')` in
`SVBFile.__init__`. -/
structure FileHeader where
  Name : List Nat
  StartTime : ℤ
  EndTime : ℤ
  ChannelCount : Nat
  deriving DecidableEq

/-- Decode the file-level header: name string, start time, end time and
channel count, per the format string `'*TTL'`. -/
def decodeFileHeader (bs : List Nat) : Except DecodeError (FileHeader × List Nat) :=
  decStep (readStr bs) fun nm r =>
  decStep (readTimeField r) fun st r =>
  decStep (readTimeField r) fun et r =>
  decStep (readUInt 4 r) fun count r =>
  .ok ({ Name := nm, StartTime := st, EndTime := et, ChannelCount := count }, r)

/-- The channel header record decoded by
`_readheader(headerfile, 'Q**LQ?**QQ*LLQQQddQ')` in `Channel.__init__`,
with the source's attribute names.  `sampleTimeRaw` is the raw 100ns tick
period (the source converts it to seconds afterwards); `Offset` and
`Scalefactor` hold the raw 64-bit patterns of the two `d` fields. -/
structure ChannelHeader where
  headersize : Nat
  Name : List Nat
  NetId : List Nat
  Port : Nat
  sampleTimeRaw : Nat
  SymbolBased : Bool
  SymbolName : List Nat
  Comment : List Nat
  IndexGroup : Nat
  IndexOffset : Nat
  DataType : List Nat
  DataTypeId : Nat
  VariableSize : Nat
  SamplesInFile : Nat
  DataInFile : Nat
  FileStartPosition : Nat
  Offset : Nat
  Scalefactor : Nat
  Bitmask : Nat
  deriving DecidableEq

/-- Sequential decoding of the 19 channel-header fields in the order of the
format string `'Q**LQ?**QQ*LLQQQddQ'` (`Q` = 8-byte uint, `*` = string,
`L` = 4-byte uint, `?` = bool byte, `d` = float64 bit pattern). -/
def readChannelFields (bs : List Nat) : Except DecodeError (ChannelHeader × List Nat) :=
  decStep (readUInt 8 bs) fun hsz r =>
  decStep (readStr r) fun nm r =>
  decStep (readStr r) fun netId r =>
  decStep (readUInt 4 r) fun port r =>
  decStep (readUInt 8 r) fun sampleT r =>
  decStep (readUInt 1 r) fun symB r =>
  decStep (readStr r) fun symName r =>
  decStep (readStr r) fun comm r =>
  decStep (readUInt 8 r) fun idxGroup r =>
  decStep (readUInt 8 r) fun idxOffset r =>
  decStep (readStr r) fun dataType r =>
  decStep (readUInt 4 r) fun dataTypeId r =>
  decStep (readUInt 4 r) fun variableSize r =>
  decStep (readUInt 8 r) fun samplesInFile r =>
  decStep (readUInt 8 r) fun dataInFile r =>
  decStep (readUInt 8 r) fun fileStartPos r =>
  decStep (readUInt 8 r) fun offs r =>
  decStep (readUInt 8 r) fun scal r =>
  decStep (readUInt 8 r) fun bitmask r =>
  .ok ({ headersize := hsz, Name := nm, NetId := netId, Port := port,
          sampleTimeRaw := sampleT, SymbolBased := symB != 0, SymbolName := symName,
          Comment := comm, IndexGroup := idxGroup, IndexOffset := idxOffset,
          DataType := dataType, DataTypeId := dataTypeId, VariableSize := variableSize,
          SamplesInFile := samplesInFile, DataInFile := dataInFile,
          FileStartPosition := fileStartPos, Offset := offs, Scalefactor := scal,
          Bitmask := bitmask }, r)

/-- The recognized data-type tags: the keys of `Channel.DATATYPES`, as ASCII
byte lists (`REAL64`, `REAL32`, `UINT64`, `UINT32`, `UINT16`, `UINT8`,
`INT64`, `INT32`, `INT16`, `INT8`, `BIT`, `BIT8`, `BITARR8`, `BITARR16`,
`BITARR32`). -/
def DATATYPES : List (List Nat) :=
  [[82, 69, 65, 76, 54, 52], [82, 69, 65, 76, 51, 50],
   [85, 73, 78, 84, 54, 52], [85, 73, 78, 84, 51, 50],
   [85, 73, 78, 84, 49, 54], [85, 73, 78, 84, 56],
   [73, 78, 84, 54, 52], [73, 78, 84, 51, 50],
   [73, 78, 84, 49, 54], [73, 78, 84, 56],
   [66, 73, 84], [66, 73, 84, 56],
   [66, 73, 84, 65, 82, 82, 56], [66, 73, 84, 65, 82, 82, 49, 54],
   [66, 73, 84, 65, 82, 82, 51, 50]]

/-- Decode one channel record, with the validations of `Channel.__init__`
in source order: the header-size check
(`headerfile.tell() - startpos != headersize`), the data-size assertion
(`DataInFile == (VariableSize + 4) * SamplesInFile`) and the
`DATATYPES[self.DataType]` lookup. -/
def decodeChannel (bs : List Nat) : Except DecodeError ChannelHeader :=
  match readChannelFields bs with
  | .error e => .error e
  | .ok (h, rest) =>
    if bs.length - rest.length ≠ h.headersize then .error .headerSizeMismatch
    else if h.DataInFile ≠ (h.VariableSize + 4) * h.SamplesInFile then .error .dataSizeMismatch
    else if h.DataType ∈ DATATYPES then .ok h
    else .error .unknownDataType

/-- Whether a decode attempt failed. -/
def isErr {α : Type} (e : Except DecodeError α) : Bool :=
  match e with
  | .error _ => true
  | .ok _ => false

/-- Wrapping (modulo `2^32`) unsigned subtraction `a - b`, the elementwise
behaviour of `np.diff` on a `uint32` array. -/
def wrapSub (a b : Nat) : Nat := (a + 2 ^ 32 - b) % 2 ^ 32

/-- Consecutive first differences `np.diff(t)` on `uint32` timestamps. -/
def diffWrap : List Nat → List Nat
  | [] => []
  | [_] => []
  | a :: b :: r => wrapSub b a :: diffWrap (b :: r)

/-- Running-sum worker for `cumsumNat`. -/
def cumsumAux (acc : Nat) : List Nat → List Nat
  | [] => []
  | x :: r => (acc + x) :: cumsumAux (acc + x) r

/-- `np.cumsum`: `cumsumNat l` has `i`-th entry `l[0] + ... + l[i]`.  The
accumulation into the `float64` output buffer is exact at the magnitudes
involved, so it is modelled as exact natural-number summation. -/
def cumsumNat (l : List Nat) : List Nat := cumsumAux 0 l

/-- The tick-valued time axis computed by the `Channel.Time` property before
the final division by `1e7`: `result[0] = t[0]` and
`np.cumsum(dt, out=result[1:])`.  Note that the cumulative sum is written
into `result[1:]` as-is — it is not offset by `t[0]`. -/
def timeTicks : List Nat → List Nat
  | [] => []
  | t0 :: r => t0 :: cumsumNat (diffWrap (t0 :: r))

/-- The seconds-valued time axis returned by `Channel.Time`: the tick axis
divided by `1e7` (the division is exact in rationals; the float64 division
in the source rounds each entry but preserves order and equality of the
small examples studied here). -/
def timeAxis (t : List Nat) : List ℚ := (timeTicks t).map fun (n : ℕ) => (n : ℚ) / 10 ^ 7

/-- Recurrence worker for `timeTicksSpec`: given the previous result value
and the previous raw value, emit `result[i] = result[i-1] + dt[i-1]`. -/
def specGo (resPrev rawPrev : Nat) : List Nat → List Nat
  | [] => []
  | x :: r => (resPrev + wrapSub x rawPrev) :: specGo (resPrev + wrapSub x rawPrev) x r

/-- Modelled from the spec: the time-axis recurrence stated in section 4.3
(`result[0] = raw[0]`, `result[i] = result[i-1] + dt[i-1]` with wrapping
deltas), used to compare the specified algorithm with `timeTicks`. -/
def timeTicksSpec : List Nat → List Nat
  | [] => []
  | t0 :: r => t0 :: specGo t0 t0 r

/-- Linear interpolation of a query point against `(x, y)` sample pairs with
boundary clamping: the behaviour of `np.interp` for sorted sample points. -/
def interpAt (q : ℚ) : List (ℚ × ℚ) → ℚ
  | [] => 0
  | [(_, y)] => y
  | (x1, y1) :: (x2, y2) :: r =>
    if q ≤ x1 then y1
    else if q ≤ x2 then y1 + (y2 - y1) * (q - x1) / (x2 - x1)
    else interpAt q ((x2, y2) :: r)

/-- The per-channel data used by `Channel.interpolate`: the raw `uint32`
timestamps of the mapped data region and the sample values. -/
structure ChannelData where
  timestamps : List Nat
  values : List ℚ

/-- The channel's own time axis `self.Time`. -/
def chanTime (c : ChannelData) : List ℚ := timeAxis c.timestamps

/-- `Channel.interpolate`: if the requested axis equals the channel's own
time axis elementwise (`np.all(t == self.Time)`), return the values
unchanged; otherwise fall back to `np.interp(t, self.Time, self.Values)`. -/
def interpolate (c : ChannelData) (t : List ℚ) : List ℚ :=
  if t = chanTime c then c.values
  else t.map fun q => interpAt q ((chanTime c).zip c.values)

/-- A well-formed 120-byte channel record: name `A`, empty net id, port 801,
sample period 10000 ticks, `REAL64` data, 8-byte values, 2 samples,
`DataInFile = (8+4)*2 = 24`, zero calibration fields. -/
def chBufGood : List Nat :=
  leBytes 8 120 ++ leBytes 4 1 ++ [65] ++ leBytes 4 0 ++ leBytes 4 801 ++
  leBytes 8 10000 ++ [0] ++ leBytes 4 0 ++ leBytes 4 0 ++ leBytes 8 0 ++
  leBytes 8 0 ++ leBytes 4 6 ++ [82, 69, 65, 76, 54, 52] ++ leBytes 4 5 ++
  leBytes 4 8 ++ leBytes 8 2 ++ leBytes 8 24 ++ leBytes 8 0 ++ leBytes 8 0 ++
  leBytes 8 0 ++ leBytes 8 0

/-- The decoded fields of `chBufGood`. -/
def chFieldsGood : ChannelHeader :=
  { headersize := 120, Name := [65], NetId := [], Port := 801,
    sampleTimeRaw := 10000, SymbolBased := false, SymbolName := [], Comment := [],
    IndexGroup := 0, IndexOffset := 0, DataType := [82, 69, 65, 76, 54, 52],
    DataTypeId := 5, VariableSize := 8, SamplesInFile := 2, DataInFile := 24,
    FileStartPosition := 0, Offset := 0, Scalefactor := 0, Bitmask := 0 }

/-- Like `chBufGood` but with `DataInFile = 25`, violating the data-size
invariant while still consuming exactly `headersize` bytes. -/
def chBufBad : List Nat :=
  leBytes 8 120 ++ leBytes 4 1 ++ [65] ++ leBytes 4 0 ++ leBytes 4 801 ++
  leBytes 8 10000 ++ [0] ++ leBytes 4 0 ++ leBytes 4 0 ++ leBytes 8 0 ++
  leBytes 8 0 ++ leBytes 4 6 ++ [82, 69, 65, 76, 54, 52] ++ leBytes 4 5 ++
  leBytes 4 8 ++ leBytes 8 2 ++ leBytes 8 25 ++ leBytes 8 0 ++ leBytes 8 0 ++
  leBytes 8 0 ++ leBytes 8 0

/-- The decoded fields of `chBufBad`. -/
def chFieldsBad : ChannelHeader := { chFieldsGood with DataInFile := 25 }

/-- A file-level header buffer with empty name, zero start/end times, and
eight trailing bytes `[1,0,0,0,2,0,0,0]` after the time fields. -/
def fhBufCex : List Nat :=
  leBytes 4 0 ++ leBytes 8 0 ++ leBytes 8 0 ++ [1, 0, 0, 0, 2, 0, 0, 0]

/-- File-level header buffer whose channel-count slot holds the four bytes
`[a, b, c, d]` and nothing after them. -/
def fhBufCount (a b c d : Nat) : List Nat :=
  leBytes 4 0 ++ leBytes 8 0 ++ leBytes 8 0 ++ [a, b, c, d]

/-- Channel record whose port slot holds the four bytes `[a, b, c, d]`. -/
def chBufPort (a b c d : Nat) : List Nat :=
  leBytes 8 120 ++ leBytes 4 1 ++ [65] ++ leBytes 4 0 ++ [a, b, c, d] ++
  leBytes 8 10000 ++ [0] ++ leBytes 4 0 ++ leBytes 4 0 ++ leBytes 8 0 ++
  leBytes 8 0 ++ leBytes 4 6 ++ [82, 69, 65, 76, 54, 52] ++ leBytes 4 5 ++
  leBytes 4 8 ++ leBytes 8 2 ++ leBytes 8 24 ++ leBytes 8 0 ++ leBytes 8 0 ++
  leBytes 8 0 ++ leBytes 8 0

/-- Channel record whose data-type-id slot holds the four bytes `[a, b, c, d]`. -/
def chBufDtId (a b c d : Nat) : List Nat :=
  leBytes 8 120 ++ leBytes 4 1 ++ [65] ++ leBytes 4 0 ++ leBytes 4 801 ++
  leBytes 8 10000 ++ [0] ++ leBytes 4 0 ++ leBytes 4 0 ++ leBytes 8 0 ++
  leBytes 8 0 ++ leBytes 4 6 ++ [82, 69, 65, 76, 54, 52] ++ [a, b, c, d] ++
  leBytes 4 8 ++ leBytes 8 2 ++ leBytes 8 24 ++ leBytes 8 0 ++ leBytes 8 0 ++
  leBytes 8 0 ++ leBytes 8 0

/-- Channel record whose value-byte-width slot holds the four bytes
`[a, b, c, d]`. -/
def chBufVarSize (a b c d : Nat) : List Nat :=
  leBytes 8 120 ++ leBytes 4 1 ++ [65] ++ leBytes 4 0 ++ leBytes 4 801 ++
  leBytes 8 10000 ++ [0] ++ leBytes 4 0 ++ leBytes 4 0 ++ leBytes 8 0 ++
  leBytes 8 0 ++ leBytes 4 6 ++ [82, 69, 65, 76, 54, 52] ++ leBytes 4 5 ++
  [a, b, c, d] ++ leBytes 8 2 ++ leBytes 8 24 ++ leBytes 8 0 ++ leBytes 8 0 ++
  leBytes 8 0 ++ leBytes 8 0

/-- Channel record whose two `float64` calibration slots hold the byte lists
`o` and `s` (each expected to be 8 bytes long). -/
def chBufCal (o s : List Nat) : List Nat :=
  leBytes 8 120 ++ leBytes 4 1 ++ [65] ++ leBytes 4 0 ++ leBytes 4 801 ++
  leBytes 8 10000 ++ [0] ++ leBytes 4 0 ++ leBytes 4 0 ++ leBytes 8 0 ++
  leBytes 8 0 ++ leBytes 4 6 ++ [82, 69, 65, 76, 54, 52] ++ leBytes 4 5 ++
  leBytes 4 8 ++ leBytes 8 2 ++ leBytes 8 24 ++ leBytes 8 0 ++ o ++ s ++
  leBytes 8 0

/-- A tiny concrete channel for the interpolation fast-path witness. -/
def chanEx : ChannelData := { timestamps := [0, 5, 10], values := [1, 2, 3] }

/-- Claim C1 (code bug): on the raw timestamps `[10, 20]` the code's tick
axis is `[10, 10]` — `np.cumsum(dt, out=result[1:])` is not offset by
`raw[0]` — whereas the documented recurrence (`result[0] = raw[0]`,
`result[i] = result[i-1] + dt[i-1]`) yields `[10, 20]`; accordingly the
seconds axis differs from the specified one. -/
theorem time_axis_code_divergence :
    timeTicks [10, 20] = [10, 10] ∧ timeTicksSpec [10, 20] = [10, 20] ∧
    timeAxis [10, 20] ≠ (timeTicksSpec [10, 20]).map (fun (n : ℕ) => (n : ℚ) / 10 ^ 7) := by
  refine ⟨rfl, rfl, ?_⟩
  intro h
  have h1 : timeTicks [10, 20] = [10, 10] := rfl
  have h2 : timeTicksSpec [10, 20] = [10, 20] := rfl
  rw [timeAxis, h1, h2] at h
  simp only [List.map_cons, List.map_nil, List.cons.injEq] at h
  have := h.2.1
  norm_num at this

/-- Claim C2 (counterexample): on the raw timestamps
`[4294967290, 4294967295, 5, 10]` the code's tick-valued axis is
`[4294967290, 5, 11, 16]`, not the claimed
`[4294967290, 4294967295, 4294967305, 4294967310]`. -/
theorem unwrap_claim_counterexample :
    timeTicks [4294967290, 4294967295, 5, 10] = [4294967290, 5, 11, 16] ∧
    ([4294967290, 5, 11, 16] : List Nat) ≠
      [4294967290, 4294967295, 4294967305, 4294967310] :=
  ⟨by decide, by decide⟩

/-- Claim C2 (amended): the code's tick axis on that input is
`[4294967290, 5, 11, 16]` (wrapping deltas `[5, 6, 5]`, running sum not
anchored at `raw[0]`); even the spec's own recurrence would give
`[4294967290, 4294967295, 4294967301, 4294967306]` — the wrapped delta
from `4294967295` to `5` is `6`, not `10` — so the claimed values are
wrong under both. -/
theorem unwrap_actual_output :
    timeTicks [4294967290, 4294967295, 5, 10] = [4294967290, 5, 11, 16] ∧
    timeTicksSpec [4294967290, 4294967295, 5, 10] =
      [4294967290, 4294967295, 4294967301, 4294967306] :=
  ⟨by decide, by decide⟩

/-- Claim C3 (code bug): the reconstructed time axis is not monotonically
non-decreasing: on raw timestamps `[4294967290, 5]` the code produces
tick axis `[4294967290, 11]`, whose seconds axis decreases. -/
theorem time_axis_not_monotone :
    timeTicks [4294967290, 5] = [4294967290, 11] ∧
    ¬ List.Chain' (· ≤ ·) (timeAxis [4294967290, 5]) := by
  have h1 : timeTicks [4294967290, 5] = [4294967290, 11] := by decide
  refine ⟨h1, ?_⟩
  intro h
  rw [timeAxis, h1] at h
  simp only [List.map_cons, List.map_nil, List.chain'_cons, List.chain'_singleton,
    and_true] at h
  norm_num at h

/-- Claim C4: if the decoded fields violate
`DataInFile = (VariableSize + 4) * SamplesInFile` then decoding the channel
fails, and any successfully decoded channel satisfies the equation. -/
theorem data_size_invariant (bs : List Nat) (f : ChannelHeader) (rest : List Nat)
    (ch : ChannelHeader) (h : readChannelFields bs = .ok (f, rest)) :
    (f.DataInFile ≠ (f.VariableSize + 4) * f.SamplesInFile →
      isErr (decodeChannel bs) = true) ∧
    (decodeChannel bs = .ok ch →
      ch.DataInFile = (ch.VariableSize + 4) * ch.SamplesInFile) := by
  unfold decodeChannel
  rw [h]
  constructor
  · intro hne
    by_cases h1 : bs.length - rest.length ≠ f.headersize
    · simp [h1, isErr]
    · simp [h1, hne, isErr]
  · intro hok
    by_cases h1 : bs.length - rest.length ≠ f.headersize
    · simp [h1] at hok
    · by_cases h2 : f.DataInFile ≠ (f.VariableSize + 4) * f.SamplesInFile
      · simp [h1, h2] at hok
      · by_cases h3 : f.DataType ∈ DATATYPES
        · simp [h1, h2, h3] at hok
          rw [← hok]
          exact not_not.mp h2
        · simp [h1, h2, h3] at hok

/-- Claim C4 witness: the record `chBufBad` decodes its fields successfully,
violates the data-size equation, and channel decoding indeed fails. -/
theorem data_size_invariant_witness :
    isErr (decodeChannel chBufBad) = true ∧
    (decodeChannel chBufBad = .ok chFieldsBad →
      chFieldsBad.DataInFile =
        (chFieldsBad.VariableSize + 4) * chFieldsBad.SamplesInFile) := by
  have h := data_size_invariant chBufBad chFieldsBad [] chFieldsBad rfl
  exact ⟨h.1 (by decide), h.2⟩

/-- Claim C5 (counterexample): decoding `chBufBad` raises an error even
though exactly the declared `headersize` bytes (120) were consumed — the
data-size assertion fails independently — so "raises an error if and only
if the bytes advanced differ from `headersize`" is false. -/
theorem headersize_iff_counterexample :
    readChannelFields chBufBad = .ok (chFieldsBad, []) ∧
    chBufBad.length = chFieldsBad.headersize ∧
    isErr (decodeChannel chBufBad) = true ∧
    decodeChannel chBufBad ≠ .error .headerSizeMismatch := by
  refine ⟨rfl, by decide, rfl, ?_⟩
  intro h
  have h2 : decodeChannel chBufBad = .error .dataSizeMismatch := rfl
  rw [h2] at h
  simp at h

/-- Claim C5 (amended): when the fields of a channel record decode
successfully, decoding raises the header-size-mismatch error exactly when
the bytes consumed differ from the declared `headersize`, and any
successful decode consumed exactly `headersize` bytes. -/
theorem headersize_check_characterization (bs : List Nat) (f : ChannelHeader)
    (rest : List Nat) (ch : ChannelHeader)
    (h : readChannelFields bs = .ok (f, rest)) :
    (decodeChannel bs = .error .headerSizeMismatch ↔
      bs.length - rest.length ≠ f.headersize) ∧
    (decodeChannel bs = .ok ch → bs.length - rest.length = ch.headersize) := by
  unfold decodeChannel
  rw [h]
  by_cases h1 : bs.length - rest.length ≠ f.headersize
  · constructor
    · simp [h1]
    · intro hok
      simp [h1] at hok
  · constructor
    · by_cases h2 : f.DataInFile ≠ (f.VariableSize + 4) * f.SamplesInFile
      · simp [h1, h2]
      · by_cases h3 : f.DataType ∈ DATATYPES
        · simp [h1, h2, h3]
        · simp [h1, h2, h3]
    · intro hok
      by_cases h2 : f.DataInFile ≠ (f.VariableSize + 4) * f.SamplesInFile
      · simp [h1, h2] at hok
      · by_cases h3 : f.DataType ∈ DATATYPES
        · simp [h1, h2, h3] at hok
          rw [← hok]
          exact not_not.mp h1
        · simp [h1, h2, h3] at hok

/-- Claim C5 witness: instantiation of the characterization on the
well-formed record `chBufGood`. -/
theorem headersize_check_characterization_witness :
    (decodeChannel chBufGood = .error .headerSizeMismatch ↔
      chBufGood.length - ([] : List Nat).length ≠ chFieldsGood.headersize) ∧
    (decodeChannel chBufGood = .ok chFieldsGood →
      chBufGood.length - ([] : List Nat).length = chFieldsGood.headersize) :=
  headersize_check_characterization chBufGood chFieldsGood [] chFieldsGood rfl

/-- Claim C8: interpolating on an axis elementwise equal to the channel's
own time axis returns the stored values exactly. -/
theorem interpolate_fast_path (c : ChannelData) (t : List ℚ)
    (h : t = chanTime c) : interpolate c t = c.values := by
  rw [interpolate, if_pos h]

/-- Claim C8 witness: the fast path on a concrete channel. -/
theorem interpolate_fast_path_witness :
    interpolate chanEx (chanTime chanEx) = chanEx.values :=
  interpolate_fast_path chanEx (chanTime chanEx) rfl

/-- Claim C6 (counterexample): the file-level channel count is read from 4
bytes, not 8: decoding `fhBufCex` yields count `1` with the four bytes
`[2, 0, 0, 0]` left unconsumed, whereas an 8-byte read would have produced
`leVal [1, 0, 0, 0, 2, 0, 0, 0] = 8589934593` and consumed everything. -/
theorem uint64_claim_counterexample :
    (decodeFileHeader fhBufCex).map (fun p => (p.1.ChannelCount, p.2)) =
      .ok (1, [2, 0, 0, 0]) ∧
    (1 : Nat) ≠ leVal [1, 0, 0, 0, 2, 0, 0, 0] :=
  ⟨rfl, by decide⟩

/-- Claim C6 (amended): the file-level channel count and the channel-record
fields port, data-type id and value byte width are each decoded as 4-byte
(`uint32`) little-endian unsigned integers: placing arbitrary bytes
`[a, b, c, d]` in the respective slot yields the value `leVal [a, b, c, d]`
and decoding proceeds exactly 4 bytes further. -/
theorem uint32_fields_decoded (a b c d : Nat) :
    (decodeFileHeader (fhBufCount a b c d)).map
        (fun p => (p.1.ChannelCount, p.2)) = .ok (leVal [a, b, c, d], []) ∧
    (readChannelFields (chBufPort a b c d)).map
        (fun p => (p.1.Port, p.2)) = .ok (leVal [a, b, c, d], []) ∧
    (readChannelFields (chBufDtId a b c d)).map
        (fun p => (p.1.DataTypeId, p.2)) = .ok (leVal [a, b, c, d], []) ∧
    (readChannelFields (chBufVarSize a b c d)).map
        (fun p => (p.1.VariableSize, p.2)) = .ok (leVal [a, b, c, d], []) := by
  refine ⟨?_, ?_, ?_, ?_⟩ <;>
    simp [fhBufCount, chBufPort, chBufDtId, chBufVarSize, decodeFileHeader,
      readChannelFields, decStep, readStr, readTimeField, readUInt, readBytes,
      leBytes, leVal, utf8Valid, utf8Go, utf8Cont, Except.map]

/-- Claim C7: of the two consecutive `float64` calibration fields in a
channel record, the first 8 bytes are assigned to `Offset` and the second
8 bytes to `Scalefactor`. -/
theorem offset_before_scalefactor
    (o1 o2 o3 o4 o5 o6 o7 o8 s1 s2 s3 s4 s5 s6 s7 s8 : Nat) :
    (decodeChannel
        (chBufCal [o1, o2, o3, o4, o5, o6, o7, o8]
          [s1, s2, s3, s4, s5, s6, s7, s8])).map
        (fun ch => (ch.Offset, ch.Scalefactor)) =
      .ok (leVal [o1, o2, o3, o4, o5, o6, o7, o8],
        leVal [s1, s2, s3, s4, s5, s6, s7, s8]) := by
  simp [chBufCal, decodeChannel, readChannelFields, decStep, readStr, readUInt,
    readBytes, leBytes, leVal, utf8Valid, utf8Go, utf8Cont, DATATYPES, Except.map]

/-- Rounding to the nearest integer (ties to even) fixes integers. -/
theorem roundHalfEven_intCast (m : ℤ) : roundHalfEven (m : ℚ) = m := by
  unfold roundHalfEven
  rw [Int.fract_intCast, Int.floor_intCast]
  norm_num

/-- Binary64 rounding fixes every natural number below `2 ^ 53` (such values
are exactly representable). -/
theorem floatRound_natCast (n : ℕ) (hn : n < 2 ^ 53) : floatRound (n : ℚ) = n := by
  rcases Nat.eq_zero_or_pos n with h0 | hpos
  · subst h0; simp [floatRound]
  · have hq0 : (0:ℚ) < n := by exact_mod_cast hpos
    have hne : (n:ℚ) ≠ 0 := ne_of_gt hq0
    have habs : |(n:ℚ)| = (n:ℚ) := abs_of_pos hq0
    unfold floatRound
    rw [if_neg hne, habs]
    set e := Int.log 2 ((n:ℚ)) with he
    have he0 : 0 ≤ e := by
      rw [he, Int.log_natCast]
      exact Int.ofNat_nonneg _
    have he53 : e < 53 := by
      have hlt : (n:ℚ) < (2:ℚ) ^ (53:ℤ) := by
        rw [show (53:ℤ) = ((53:ℕ):ℤ) from rfl, zpow_natCast]
        exact_mod_cast hn
      exact (Int.lt_zpow_iff_log_lt (by norm_num) hq0).mp hlt
    obtain ⟨k, hk⟩ : ∃ k : ℕ, (k:ℤ) = 52 - e :=
      ⟨(52 - e).toNat, Int.toNat_of_nonneg (by omega)⟩
    have hdiv : (n:ℚ) / 2 ^ (e - 52) = ((n * 2 ^ k : ℕ) : ℚ) := by
      push_cast
      rw [div_eq_mul_inv, ← zpow_neg, ← zpow_natCast (2:ℚ) k]
      rw [show -(e - 52) = (k:ℤ) by omega]
    rw [hdiv]
    rw [show ((n * 2 ^ k : ℕ) : ℚ) = (((n * 2 ^ k : ℕ) : ℤ) : ℚ) by push_cast; ring]
    rw [roundHalfEven_intCast]
    push_cast
    rw [← zpow_natCast (2:ℚ) k, mul_assoc, ← zpow_add₀ (by norm_num : (2:ℚ) ≠ 0)]
    rw [show (k:ℤ) + (e - 52) = 0 by omega]
    rw [zpow_zero, mul_one]

/-- Evaluation of the timestamp decoding at `t = 2 ^ 60` ticks: the float
division `t / 10` rounds to the binary64 value `115292150460684704`
(the exact quotient is `115292150460684697.6`). -/
theorem decodeTicks_pow60 : decodeTicks (2 ^ 60) = 115292150460684704 := by
  unfold decodeTicks
  have hq : ((2 ^ 60 : ℕ) : ℚ) / 10 = 576460752303423488 / 5 := by
    push_cast
    norm_num
  rw [hq]
  have hpos : (0:ℚ) < 576460752303423488 / 5 := by norm_num
  have hne : (576460752303423488 / 5 : ℚ) ≠ 0 := ne_of_gt hpos
  have habs : |(576460752303423488 / 5 : ℚ)| = 576460752303423488 / 5 :=
    abs_of_pos hpos
  have hlog : Int.log 2 (576460752303423488 / 5 : ℚ) = 56 := by
    have h1 : (2:ℚ) ^ (56:ℤ) ≤ 576460752303423488 / 5 := by
      rw [show (56:ℤ) = ((56:ℕ):ℤ) from rfl, zpow_natCast]
      norm_num
    have h2 : (576460752303423488 / 5 : ℚ) < 2 ^ (57:ℤ) := by
      rw [show (57:ℤ) = ((57:ℕ):ℤ) from rfl, zpow_natCast]
      norm_num
    have hub := (Int.lt_zpow_iff_log_lt (b := 2) (by norm_num) hpos).mp h2
    have hlb := (Int.zpow_le_iff_le_log (b := 2) (by norm_num) hpos).mp h1
    omega
  unfold floatRound
  rw [if_neg hne, habs, hlog]
  have hzp : (2:ℚ) ^ ((56:ℤ) - 52) = 16 := by
    rw [show (56:ℤ) - 52 = ((4:ℕ):ℤ) from rfl, zpow_natCast]
    norm_num
  rw [hzp]
  have harg : (576460752303423488 / 5 : ℚ) / 16 = 36028797018963968 / 5 := by
    norm_num
  rw [harg]
  have hfl : ⌊(36028797018963968 / 5 : ℚ)⌋ = 7205759403792793 := by
    rw [Int.floor_eq_iff]
    norm_num
  have hfr : Int.fract (36028797018963968 / 5 : ℚ) = 3 / 5 := by
    rw [Int.fract, hfl]
    norm_num
  have hrhe : roundHalfEven (36028797018963968 / 5 : ℚ) = 7205759403792794 := by
    unfold roundHalfEven
    rw [hfr, hfl]
    norm_num
  rw [hrhe]
  have hmul : ((7205759403792794 : ℤ) : ℚ) * 16 = ((115292150460684704 : ℤ) : ℚ) := by
    norm_num
  rw [hmul, roundHalfEven_intCast]

/-- Claim C9 (counterexample): at `t = 2 ^ 60` the decoded calendar time is
off by more than half a microsecond from the exact value `t / 10`
microseconds after the epoch (the decoded offset is `115292150460684704`
microseconds, the exact quotient is `115292150460684697.6`), so the
conversion is not exact at microsecond precision for every representable
`t`. -/
theorem timestamp_exactness_counterexample :
    decodeTicks (2 ^ 60) = 115292150460684704 ∧
    ¬ |(decodeTicks (2 ^ 60) : ℚ) - ((2 ^ 60 : ℕ) : ℚ) / 10| ≤ 1 / 2 := by
  refine ⟨decodeTicks_pow60, ?_⟩
  rw [decodeTicks_pow60]
  intro h
  rw [abs_of_nonneg (by push_cast; norm_num)] at h
  push_cast at h
  norm_num at h

/-- Claim C9 (amended): the `T`-field conversion is exact — the decoded
calendar time is the epoch plus exactly `t / 10` microseconds — whenever
`t` is a multiple of 10 whose quotient is below `2 ^ 53`; larger tick
values can lose precision in the binary64 division. -/
theorem timestamp_decode_exact_small (t : Nat) (h10 : t % 10 = 0)
    (hlt : t < 10 * 2 ^ 53) : (decodeTicks t : ℚ) = (t : ℚ) / 10 := by
  obtain ⟨k, rfl⟩ : ∃ k, t = 10 * k := ⟨t / 10, by omega⟩
  have hk : k < 2 ^ 53 := by omega
  have hq : ((10 * k : ℕ) : ℚ) / 10 = (k : ℚ) := by
    push_cast
    rw [mul_comm, mul_div_assoc, div_self (by norm_num : (10:ℚ) ≠ 0), mul_one]
  unfold decodeTicks
  rw [hq, floatRound_natCast k hk]
  rw [show ((k:ℕ):ℚ) = (((k:ℕ):ℤ):ℚ) by push_cast; ring, roundHalfEven_intCast]

/-- Claim C9 witness: the amended exactness at `t = 10`. -/
theorem timestamp_decode_exact_small_witness :
    10 % 10 = 0 ∧ 10 < 10 * 2 ^ 53 ∧ (decodeTicks 10 : ℚ) = ((10 : ℕ) : ℚ) / 10 :=
  ⟨by decide, by decide, timestamp_decode_exact_small 10 (by decide) (by decide)⟩
